import Mathlib

/-!
Verification development for the VEXos firmware-update utility
(`utils/vexos_dl.py`).  The pure string-processing functions are embedded
directly; the filesystem- and network-touching functions are embedded as
functions over an explicit system state (`Sys`) that records which paths
exist and how each external operation behaves during the run.
-/

namespace VexosDL

/-- Error values that can abort a run.  In the Python source most failure
sites execute `raise "some string"`; in Python 3 raising a non-exception
value aborts with a `TypeError`, which in particular is NOT caught by any
`except IOError` handler.  `stringRaise` models those sites (carrying the
intended message), `ioError` models genuine `IOError`/`OSError` raises, and
`indexError` models an out-of-range list subscript. -/
inductive VexosError where
  | stringRaise (msg : String)
  | ioError (msg : String)
  | indexError
deriving Repr, DecidableEq

deriving instance DecidableEq for Except

/-- Helper for `pySplit`: walks the character list, accumulating the current
field (reversed) in `acc`, emitting a field at each separator.  Mirrors
Python `str.split(sep)` semantics: `"".split(sep) == [""]`,
`"a__b".split("_") == ["a", "", "b"]`. -/
def pySplitGo (sep : Char) : List Char → List Char → List String
  | [], acc => [String.mk acc.reverse]
  | c :: cs, acc =>
    if c = sep then String.mk acc.reverse :: pySplitGo sep cs []
    else pySplitGo sep cs (c :: acc)

/-- Python's `s.split(sep)` for a single-character separator. -/
def pySplit (s : String) (sep : Char) : List String :=
  pySplitGo sep s.data []

/-- Python's `<` on strings: lexicographic comparison of the character
sequences by code point. -/
def pyCharsLt : List Char → List Char → Bool
  | [], [] => false
  | [], _ :: _ => true
  | _ :: _, [] => false
  | a :: as, b :: bs =>
    if a < b then true
    else if b < a then false
    else pyCharsLt as bs

/-- Python string comparison `a < b`. -/
def pyStrLt (a b : String) : Bool :=
  pyCharsLt a.data b.data

/-- Message raised (as a string value) by `vexos_to_semver` for every
malformed token; the source uses the same text at all three check sites. -/
def malformedVersionMsg : String :=
  "ERROR: Failed to parse VEXos version. Please try again later."

/-- Embedding of `vexos_to_semver(version)`: split the token on `"_"`,
require exactly 6 fields with the first two equal to `"VEXOS"` and `"V5"`,
and return the remaining four fields joined with dots.  Note that the
source performs NO numeric validation of the four trailing fields. -/
def vexos_to_semver (version : String) : Except VexosError String :=
  match pySplit version '_' with
  | [p, q, a, b, c, d] =>
    if p ≠ "VEXOS" then .error (.stringRaise malformedVersionMsg)
    else if q ≠ "V5" then .error (.stringRaise malformedVersionMsg)
    else .ok (a ++ "." ++ b ++ "." ++ c ++ "." ++ d)
  | _ => .error (.stringRaise malformedVersionMsg)

/-- Python list subscript `l[i]` for a non-negative index: the element when
in range, `IndexError` otherwise. -/
def pyIndex (l : List String) (i : Nat) : Except VexosError String :=
  match l.get? i with
  | some s => .ok s
  | none => .error .indexError

/-- Embedding of `is_outdated(current, latest)`: convert the latest (raw
catalog) token to the dotted form, split both versions on `"."`, and walk
the four component positions in order; at each position the source executes
`if current_semver[i] > latest_semver[i]: return False
elif current_semver[i] < latest_semver[i]: return True`, comparing the
components as Python STRINGS.  Subscripts out of range abort with
`IndexError`; the current string's subscript is evaluated before the
latest's, as in Python. -/
def is_outdated (current latest : String) : Except VexosError Bool :=
  match vexos_to_semver latest with
  | .error e => .error e
  | .ok latestSem =>
    let cs := pySplit current '.'
    let ls := pySplit latestSem '.'
    match pyIndex cs 0, pyIndex ls 0 with
    | .error e, _ => .error e
    | .ok _, .error e => .error e
    | .ok c0, .ok l0 =>
      if pyStrLt l0 c0 then .ok false
      else if pyStrLt c0 l0 then .ok true
      else
        match pyIndex cs 1, pyIndex ls 1 with
        | .error e, _ => .error e
        | .ok _, .error e => .error e
        | .ok c1, .ok l1 =>
          if pyStrLt l1 c1 then .ok false
          else if pyStrLt c1 l1 then .ok true
          else
            match pyIndex cs 2, pyIndex ls 2 with
            | .error e, _ => .error e
            | .ok _, .error e => .error e
            | .ok c2, .ok l2 =>
              if pyStrLt l2 c2 then .ok false
              else if pyStrLt c2 l2 then .ok true
              else
                match pyIndex cs 3, pyIndex ls 3 with
                | .error e, _ => .error e
                | .ok _, .error e => .error e
                | .ok c3, .ok l3 =>
                  if pyStrLt l3 c3 then .ok false
                  else if pyStrLt c3 l3 then .ok true
                  else .ok false

/-- State of the installed manifest file `vexos/manifest.json` as seen by
`get_installed_version`: the file may be absent, unreadable, hold invalid
JSON, hold JSON without a `"version"` key, or hold a version string. -/
inductive ManifestState where
  | absent
  | unreadable
  | invalidJson
  | noVersionKey
  | hasVersion (v : String)
deriving Repr, DecidableEq

/-- Message of the `IOError` re-raised by `get_installed_version` when the
manifest cannot be opened or read. -/
def readManifestMsg : String :=
  "ERROR: Failed to read manifest.json. Please check your permissions."

/-- Message raised (as a string value) by `get_installed_version` when the
manifest holds invalid JSON or lacks the `"version"` key. -/
def parseManifestMsg : String :=
  "ERROR: Failed to parse manifest.json. Please check if the file is valid."

/-- Embedding of `get_installed_version()`: open/read failures re-raise as
a genuine `IOError`; a JSON decode failure or missing `"version"` key hits
a `raise "..."` site (a string raise, hence NOT an `IOError`). -/
def get_installed_version (m : ManifestState) : Except VexosError String :=
  match m with
  | .absent => .error (.ioError readManifestMsg)
  | .unreadable => .error (.ioError readManifestMsg)
  | .invalidJson => .error (.stringRaise parseManifestMsg)
  | .noVersionKey => .error (.stringRaise parseManifestMsg)
  | .hasVersion v => .ok v

/-- System state threaded through the effectful functions.  The first group
of fields is the mutable filesystem state; the second group fixes the
behaviour of the external collaborators (network, archive, failing
deletions) for the run. -/
structure Sys where
  /-- the staged download artifact `vexos.vexos` exists (and is openable) -/
  artifactPresent : Bool
  /-- the install target directory `vexos` exists -/
  targetPresent : Bool
  /-- state of `vexos/manifest.json` -/
  manifest : ManifestState
  /-- `requests.get(catalog)` result: `none` is a connection error,
  `some t` is the catalog body `t` -/
  catalog : Option String
  /-- `os.remove("vexos.vexos")` raises `OSError` even though the file
  exists (e.g. a permission error) -/
  removeArtifactFails : Bool
  /-- `shutil.rmtree("vexos")` raises `OSError` even though the directory
  exists -/
  rmtreeTargetFails : Bool
  /-- downloading the firmware package raises a connection error -/
  downloadFails : Bool
  /-- writing the downloaded package to `vexos.vexos` raises `IOError` -/
  saveFails : Bool
  /-- `shutil.unpack_archive` raises `IOError` -/
  unpackFails : Bool
  /-- `os.listdir("vexos")` immediately after a successful unpack: the
  archive's top-level entries -/
  unpackedEntries : List String
  /-- manifest state of the target tree after a successful unpack+flatten
  (the archive ships its own `manifest.json`) -/
  archiveManifest : ManifestState
deriving Repr, DecidableEq

/-- Outcome of an effectful operation: `none` means success; `some e` means
the operation raised `e`.  The returned `Sys` is the state after the
attempt (mutations made before the raise are kept). -/
abbrev OpResult := Option VexosError × Sys

/-- Embedding of `os.remove("vexos.vexos")`: `FileNotFoundError` (an
`OSError`) when the artifact is absent, an `OSError` when the run's
environment makes the deletion fail, otherwise the file is removed. -/
def osRemoveArtifact (s : Sys) : OpResult :=
  if !s.artifactPresent then (some (.ioError "FileNotFoundError: vexos.vexos"), s)
  else if s.removeArtifactFails then (some (.ioError "OSError: vexos.vexos"), s)
  else (none, { s with artifactPresent := false })

/-- Embedding of `shutil.rmtree("vexos")`: `FileNotFoundError` when the
target is absent, an `OSError` when the run's environment makes the
deletion fail, otherwise the tree (manifest included) is removed. -/
def shutilRmtreeTarget (s : Sys) : OpResult :=
  if !s.targetPresent then (some (.ioError "FileNotFoundError: vexos"), s)
  else if s.rmtreeTargetFails then (some (.ioError "OSError: vexos"), s)
  else (none, { s with targetPresent := false, manifest := .absent })

/-- Models a `try: <op> except IOError: pass` block: an `ioError` outcome is
swallowed (keeping the state the operation left behind), anything else is
passed through. -/
def tryExceptIOPass (r : OpResult) : OpResult :=
  match r with
  | (some (.ioError _), t) => (none, t)
  | other => other

/-- Embedding of `package_already_downloaded()`: the `try: open(...)` probe
succeeds exactly when the artifact is present and openable. -/
def package_already_downloaded (s : Sys) : Bool :=
  s.artifactPresent

/-- Embedding of `resolve_conflicts()`: `os.remove("vexos.vexos")` then
`shutil.rmtree("vexos")`, EACH wrapped in `try: ... except IOError: pass`.
Every deletion failure is swallowed, whether or not the path exists. -/
def resolve_conflicts (s : Sys) : OpResult :=
  match tryExceptIOPass (osRemoveArtifact s) with
  | (some e, t) => (some e, t)
  | (none, s1) =>
    match tryExceptIOPass (shutilRmtreeTarget s1) with
    | (some e, t) => (some e, t)
    | (none, s2) => (none, s2)

/-- Embedding of `shutil.unpack_archive("vexos.vexos", "vexos", "zip")`:
on success the target directory exists and holds the archive's top-level
entries; on failure an `IOError` is raised. -/
def shutilUnpackArchive (s : Sys) : OpResult :=
  if s.unpackFails then (some (.ioError "IOError: unpack_archive"), s)
  else (none, { s with targetPresent := true })

/-- Message raised (as a string value) by `extract_vexos` when the unpack
fails with an `IOError`. -/
def extractFailMsg : String :=
  "ERROR: Failed to extract VexOS. Please check your permissions."

/-- Embedding of `extract_vexos()`: best-effort wipe of the old target
(`rmtree` inside `try/except IOError: pass`), unpack (an `IOError` is
converted to a string raise), then `os.listdir("vexos")[0]` — an
`IndexError` when the freshly unpacked directory is empty — followed by the
one-level flatten (the moves and the subfolder `rmtree`, modelled as
succeeding, leave the archive's own manifest at the target's top level). -/
def extract_vexos (s : Sys) : OpResult :=
  match tryExceptIOPass (shutilRmtreeTarget s) with
  | (some e, t) => (some e, t)
  | (none, s1) =>
    match shutilUnpackArchive s1 with
    | (some (.ioError _), t) => (some (.stringRaise extractFailMsg), t)
    | (some e, t) => (some e, t)
    | (none, s2) =>
      match s2.unpackedEntries with
      | [] => (some .indexError, s2)
      | _ :: _ => (none, { s2 with manifest := s2.archiveManifest })

/-- Message raised (as a string value) by `download_vexos` on a connection
error; the source writes `${vexos_version}` inside a plain (non-f) string,
so the text is literal. -/
def downloadFailMsg : String :=
  "ERROR: Failed to download package. Please check your internet connection."

/-- Message raised (as a string value) by `download_vexos` when saving the
package to disk fails. -/
def saveFailMsg : String :=
  "ERROR: Failed to save package to file. Please check your permissions."

/-- Embedding of `download_vexos(version)`: a connection error or a save
error hits a `raise "..."` site; on success the artifact file exists. -/
def download_vexos (s : Sys) : OpResult :=
  if s.downloadFails then (some (.stringRaise downloadFailMsg), s)
  else if s.saveFails then (some (.stringRaise saveFailMsg), s)
  else (none, { s with artifactPresent := true })

/-- Message raised (as a string value) by `get_latest_version` on a
connection error. -/
def catalogConnMsg : String :=
  "ERROR: Failed to download catalog. Please check your internet connection."

/-- Message raised (as a string value) by `get_latest_version` when the
catalog body does not start with the expected prefix. -/
def catalogParseMsg : String :=
  "ERROR: Failed to parse catalog. Please check your internet connection."

/-- Embedding of `get_latest_version()`: fetch the catalog text and require
it to start with `"VEXOS_V5_"`. -/
def get_latest_version (s : Sys) : Except VexosError String :=
  match s.catalog with
  | none => .error (.stringRaise catalogConnMsg)
  | some t =>
    if "VEXOS_V5_".data.isPrefixOf t.data then .ok t
    else .error (.stringRaise catalogParseMsg)

/-- Externally visible steps of a run, in the order they are attempted. -/
inductive Event where
  | catalogFetch
  | manifestRead
  | conflictResolve
  | download
  | extract
  | cleanup
deriving Repr, DecidableEq

/-- Overall outcome of `install_vexos`: the two early returns, a completed
install (with the old version, if any, and the new dotted version), or an
uncaught exception. -/
inductive InstallResult where
  | skippedUpToDate
  | skippedConflict
  | installed (oldVersion : Option String) (newVersion : String)
  | errored (e : VexosError)
deriving Repr, DecidableEq

/-- A finished run: its result, the steps attempted in order, and the final
system state. -/
structure Run where
  result : InstallResult
  events : List Event
  final : Sys
deriving Repr, DecidableEq

/-- Download / extract / cleanup / summary tail of `install_vexos` (the code
after the conflict check): fetch the package, extract it, delete the
artifact with an UNPROTECTED `os.remove` (no `try/except`), and render the
new version for the summary. -/
def installDownloadPhase (ver : String) (inst : Option String) (s : Sys)
    (evs : List Event) : Run :=
  match download_vexos s with
  | (some e, t) => ⟨.errored e, evs ++ [.download], t⟩
  | (none, s1) =>
    match extract_vexos s1 with
    | (some e, t) => ⟨.errored e, evs ++ [.download, .extract], t⟩
    | (none, s2) =>
      match osRemoveArtifact s2 with
      | (some e, t) => ⟨.errored e, evs ++ [.download, .extract, .cleanup], t⟩
      | (none, s3) =>
        match vexos_to_semver ver with
        | .error e => ⟨.errored e, evs ++ [.download, .extract, .cleanup], s3⟩
        | .ok sem => ⟨.installed inst sem, evs ++ [.download, .extract, .cleanup], s3⟩

/-- Conflict-check block of `install_vexos`: when the artifact is already
present, return (skip) unless `force`, in which case `resolve_conflicts()`
runs before the download phase. -/
def installConflictPhase (force : Bool) (ver : String) (inst : Option String)
    (s : Sys) (evs : List Event) : Run :=
  if package_already_downloaded s then
    if !force then ⟨.skippedConflict, evs, s⟩
    else
      match resolve_conflicts s with
      | (some e, t) => ⟨.errored e, evs ++ [.conflictResolve], t⟩
      | (none, s1) => installDownloadPhase ver inst s1 (evs ++ [.conflictResolve])
  else installDownloadPhase ver inst s evs

/-- Staleness-check block of `install_vexos`: with an installed version in
hand, `if not is_outdated(...) and not force: return` — an exception from
`is_outdated` propagates; up-to-date without `force` returns early;
otherwise control falls through to the conflict check. -/
def installStalenessPhase (force : Bool) (ver : String) (inst : Option String)
    (s : Sys) (evs : List Event) : Run :=
  match inst with
  | some iv =>
    match is_outdated iv ver with
    | .error e => ⟨.errored e, evs, s⟩
    | .ok outdated =>
      if !outdated && !force then ⟨.skippedUpToDate, evs, s⟩
      else installConflictPhase force ver inst s evs
  | none => installConflictPhase force ver inst s evs

/-- Manifest-read block of `install_vexos`:
`try: installed_version = get_installed_version() except IOError:
installed_version = None` — only a genuine `IOError` is downgraded to
`None`; the string-raise sites (invalid JSON, missing key) propagate. -/
def installManifestPhase (force : Bool) (ver : String) (s : Sys)
    (evs : List Event) : Run :=
  match get_installed_version s.manifest with
  | .error (.ioError _) => installStalenessPhase force ver none s (evs ++ [.manifestRead])
  | .error e => ⟨.errored e, evs ++ [.manifestRead], s⟩
  | .ok iv => installStalenessPhase force ver (some iv) s (evs ++ [.manifestRead])

/-- Embedding of `install_vexos(force, version)`: resolve the target
version (fetching the catalog when none is given, and immediately rendering
it with `vexos_to_semver` for the progress message, which can itself
raise), then read the manifest, check staleness, check conflicts, and run
the download phase. -/
def install_vexos (force : Bool) (version : Option String) (s : Sys) : Run :=
  match version with
  | none =>
    match get_latest_version s with
    | .error e => ⟨.errored e, [.catalogFetch], s⟩
    | .ok v =>
      match vexos_to_semver v with
      | .error e => ⟨.errored e, [.catalogFetch], s⟩
      | .ok _ => installManifestPhase force v s [.catalogFetch]
  | some v => installManifestPhase force v s []

/-- Spec §4.1 `render`: the dotted rendering of a structured 4-component
version, the form stored in the installed manifest. -/
def renderSemver (a b c d : Nat) : String :=
  toString a ++ "." ++ toString b ++ "." ++ toString c ++ "." ++ toString d

/-- A raw catalog token encoding the structured version `(a, b, c, d)`. -/
def mkToken (a b c d : Nat) : String :=
  "VEXOS_V5_" ++ toString a ++ "_" ++ toString b ++ "_" ++ toString c ++ "_" ++ toString d

/-- A quiescent system: nothing on disk, no collaborator failures, and an
archive that unpacks to a single subdirectory carrying a manifest. -/
def baseSys : Sys :=
  { artifactPresent := false
    targetPresent := false
    manifest := .absent
    catalog := none
    removeArtifactFails := false
    rmtreeTargetFails := false
    downloadFails := false
    saveFails := false
    unpackFails := false
    unpackedEntries := ["vexos-folder"]
    archiveManifest := .hasVersion "1.0.0.1" }

end VexosDL

namespace VexosDL

/-! ### Library of facts about the embedded functions -/

theorem pySplitGo_no_sep (sep : Char) (l : List Char) :
    ∀ acc, (∀ c ∈ l, c ≠ sep) → pySplitGo sep l acc = [String.mk (acc.reverse ++ l)] := by
  induction l with
  | nil => intro acc _; simp [pySplitGo]
  | cons c cs ih =>
    intro acc h
    have hc : c ≠ sep := h c (List.mem_cons_self ..)
    simp only [pySplitGo, if_neg hc]
    rw [ih (c :: acc) (fun x hx => h x (List.mem_cons_of_mem _ hx))]
    simp

theorem pySplitGo_sep_append (sep : Char) (l1 : List Char) :
    ∀ (acc l2 : List Char), (∀ c ∈ l1, c ≠ sep) →
      pySplitGo sep (l1 ++ sep :: l2) acc
        = String.mk (acc.reverse ++ l1) :: pySplitGo sep l2 [] := by
  induction l1 with
  | nil => intro acc l2 _; simp [pySplitGo]
  | cons c cs ih =>
    intro acc l2 h
    have hc : c ≠ sep := h c (List.mem_cons_self ..)
    simp only [List.cons_append, pySplitGo, if_neg hc, List.append_eq]
    rw [ih (c :: acc) l2 (fun x hx => h x (List.mem_cons_of_mem _ hx))]
    simp

theorem digitChar_not_sep (m : Nat) : Nat.digitChar m ≠ '.' ∧ Nat.digitChar m ≠ '_' := by
  by_cases h : m < 16
  · interval_cases m <;> decide
  · have h16 : Nat.digitChar m = '*' := by
      unfold Nat.digitChar
      repeat rw [if_neg (by omega)]
    rw [h16]
    decide

theorem toDigitsCore_mem (b : Nat) :
    ∀ (fuel n : Nat) (acc : List Char) (c : Char),
      c ∈ Nat.toDigitsCore b fuel n acc → c ∈ acc ∨ ∃ m, c = Nat.digitChar m := by
  intro fuel
  induction fuel with
  | zero => intro n acc c h; exact Or.inl h
  | succ f ih =>
    intro n acc c h
    simp only [Nat.toDigitsCore] at h
    split at h
    · rcases List.mem_cons.mp h with h | h
      · exact Or.inr ⟨n % b, h⟩
      · exact Or.inl h
    · rcases ih (n / b) (Nat.digitChar (n % b) :: acc) c h with h' | h'
      · rcases List.mem_cons.mp h' with h'' | h''
        · exact Or.inr ⟨n % b, h''⟩
        · exact Or.inl h''
      · exact Or.inr h'

theorem toString_nat_no_sep (n : Nat) :
    ∀ c ∈ (toString n).data, c ≠ '.' ∧ c ≠ '_' := by
  intro c hc
  have hd : (toString n).data = Nat.toDigits 10 n := rfl
  rw [hd] at hc
  rcases toDigitsCore_mem 10 (n + 1) n [] c hc with h | ⟨m, rfl⟩
  · cases h
  · exact digitChar_not_sep m

theorem strMk_data (s : String) : String.mk s.data = s := rfl

theorem pySplit_renderSemver (a b c d : Nat) :
    pySplit (renderSemver a b c d) '.'
      = [toString a, toString b, toString c, toString d] := by
  have hdata : (renderSemver a b c d).data
      = (toString a).data ++ '.' :: ((toString b).data ++ '.' ::
          ((toString c).data ++ '.' :: (toString d).data)) := by
    simp only [renderSemver, String.data_append, List.append_assoc]
    rfl
  rw [pySplit, hdata,
    pySplitGo_sep_append '.' _ _ _ (fun x hx => (toString_nat_no_sep a x hx).1),
    pySplitGo_sep_append '.' _ _ _ (fun x hx => (toString_nat_no_sep b x hx).1),
    pySplitGo_sep_append '.' _ _ _ (fun x hx => (toString_nat_no_sep c x hx).1),
    pySplitGo_no_sep '.' _ _ (fun x hx => (toString_nat_no_sep d x hx).1)]
  simp [strMk_data]

theorem pySplit_mkToken (a b c d : Nat) :
    pySplit (mkToken a b c d) '_'
      = ["VEXOS", "V5", toString a, toString b, toString c, toString d] := by
  have hdata : (mkToken a b c d).data
      = ['V', 'E', 'X', 'O', 'S'] ++ '_' :: (['V', '5'] ++ '_' ::
          ((toString a).data ++ '_' :: ((toString b).data ++ '_' ::
            ((toString c).data ++ '_' :: (toString d).data)))) := by
    simp only [mkToken, String.data_append, List.append_assoc]
    rfl
  rw [pySplit, hdata,
    pySplitGo_sep_append '_' _ _ _ (by intro x hx; fin_cases hx <;> decide),
    pySplitGo_sep_append '_' _ _ _ (by intro x hx; fin_cases hx <;> decide),
    pySplitGo_sep_append '_' _ _ _ (fun x hx => (toString_nat_no_sep a x hx).2),
    pySplitGo_sep_append '_' _ _ _ (fun x hx => (toString_nat_no_sep b x hx).2),
    pySplitGo_sep_append '_' _ _ _ (fun x hx => (toString_nat_no_sep c x hx).2),
    pySplitGo_no_sep '_' _ _ (fun x hx => (toString_nat_no_sep d x hx).2)]
  simp [strMk_data]

theorem vexos_to_semver_mkToken (a b c d : Nat) :
    vexos_to_semver (mkToken a b c d) = .ok (renderSemver a b c d) := by
  rw [vexos_to_semver, pySplit_mkToken]
  simp [renderSemver]

theorem pySplit_single (a : Nat) : pySplit (toString a) '.' = [toString a] := by
  rw [pySplit, pySplitGo_no_sep '.' _ _ (fun x hx => (toString_nat_no_sep a x hx).1)]
  simp [strMk_data]

theorem pySplit_pair (a b : Nat) :
    pySplit (toString a ++ "." ++ toString b) '.' = [toString a, toString b] := by
  have hdata : (toString a ++ "." ++ toString b).data
      = (toString a).data ++ '.' :: (toString b).data := by
    simp only [String.data_append, List.append_assoc]
    rfl
  rw [pySplit, hdata,
    pySplitGo_sep_append '.' _ _ _ (fun x hx => (toString_nat_no_sep a x hx).1),
    pySplitGo_no_sep '.' _ _ (fun x hx => (toString_nat_no_sep b x hx).1)]
  simp [strMk_data]

theorem pySplit_triple (a b c : Nat) :
    pySplit (toString a ++ "." ++ toString b ++ "." ++ toString c) '.'
      = [toString a, toString b, toString c] := by
  have hdata : (toString a ++ "." ++ toString b ++ "." ++ toString c).data
      = (toString a).data ++ '.' :: ((toString b).data ++ '.' :: (toString c).data) := by
    simp only [String.data_append, List.append_assoc]
    rfl
  rw [pySplit, hdata,
    pySplitGo_sep_append '.' _ _ _ (fun x hx => (toString_nat_no_sep a x hx).1),
    pySplitGo_sep_append '.' _ _ _ (fun x hx => (toString_nat_no_sep b x hx).1),
    pySplitGo_no_sep '.' _ _ (fun x hx => (toString_nat_no_sep c x hx).1)]
  simp [strMk_data]

theorem pyCharsLt_irrefl (l : List Char) : pyCharsLt l l = false := by
  induction l with
  | nil => rfl
  | cons c cs ih => simp [pyCharsLt, ih]

theorem pyStrLt_irrefl (s : String) : pyStrLt s s = false :=
  pyCharsLt_irrefl s.data

theorem resolve_conflicts_fst (s : Sys) : (resolve_conflicts s).1 = none := by
  unfold resolve_conflicts tryExceptIOPass osRemoveArtifact shutilRmtreeTarget
  by_cases h1 : s.artifactPresent <;> by_cases h2 : s.removeArtifactFails <;>
    by_cases h3 : s.targetPresent <;> by_cases h4 : s.rmtreeTargetFails <;>
      simp [h1, h2, h3, h4]

theorem resolve_conflicts_artifact (s : Sys) (h : s.removeArtifactFails = false) :
    ((resolve_conflicts s).2).artifactPresent = false := by
  unfold resolve_conflicts tryExceptIOPass osRemoveArtifact shutilRmtreeTarget
  by_cases h1 : s.artifactPresent <;> by_cases h3 : s.targetPresent <;>
    by_cases h4 : s.rmtreeTargetFails <;> simp [h1, h3, h4, h]

theorem tryRmtree_shape (s : Sys) :
    tryExceptIOPass (shutilRmtreeTarget s)
      = (none, if s.targetPresent && !s.rmtreeTargetFails
               then { s with targetPresent := false, manifest := .absent } else s) := by
  unfold tryExceptIOPass shutilRmtreeTarget
  by_cases h3 : s.targetPresent <;> by_cases h4 : s.rmtreeTargetFails <;> simp [h3, h4]

theorem installDownloadPhase_events (ver : String) (inst : Option String) (s : Sys)
    (evs : List Event) :
    ∃ rest, (installDownloadPhase ver inst s evs).events = evs ++ .download :: rest := by
  unfold installDownloadPhase
  rcases hd : download_vexos s with ⟨_ | e1, s1⟩
  · rcases hx : extract_vexos s1 with ⟨_ | e2, s2⟩
    · rcases hr : osRemoveArtifact s2 with ⟨_ | e3, s3⟩
      · rcases hv : vexos_to_semver ver with e4 | sem
        · simp only [hd, hx, hr, hv]
          exact ⟨[.extract, .cleanup], rfl⟩
        · simp only [hd, hx, hr, hv]
          exact ⟨[.extract, .cleanup], rfl⟩
      · simp only [hd, hx, hr]
        exact ⟨[.extract, .cleanup], rfl⟩
    · simp only [hd, hx]
      exact ⟨[.extract], rfl⟩
  · simp only [hd]
    exact ⟨[], rfl⟩

end VexosDL

namespace VexosDL

/-! ### Claim theorems -/

/-- C1: the spec requires `is_outdated` to compare the four version
components as integers, so that an installed minor component 9 is outdated
relative to a candidate minor component 10.  The code compares the
components as Python strings, and lexicographically `"10" < "9"`, so at
exactly that input the code reports the installation as up to date. -/
theorem C1_is_outdated_string_compare :
    is_outdated "1.9.0.0" "VEXOS_V5_1_10_0_0" = .ok false ∧ pyStrLt "10" "9" = true := by
  decide

/-- C2 counterexample: a run that reaches the cleanup step (download and
extract both succeeded, as the event trace shows) in which deleting the
artifact fails is reported as an error — the unprotected `os.remove` aborts
the run before the summary, contradicting the claim that cleanup is
best-effort. -/
theorem C2_cleanup_not_best_effort_counterexample :
    (install_vexos false (some "VEXOS_V5_1_0_0_1")
        { baseSys with removeArtifactFails := true }).result
      = .errored (.ioError "OSError: vexos.vexos") ∧
    (install_vexos false (some "VEXOS_V5_1_0_0_1")
        { baseSys with removeArtifactFails := true }).events
      = [.manifestRead, .download, .extract, .cleanup] := by
  decide

/-- C2 amended: in every run that reaches the cleanup step, a failure to
delete the artifact raises an uncaught `OSError` and the run ends in an
error, with no summary produced and the artifact still on disk. -/
theorem C2_cleanup_failure_aborts (ver : String) (inst : Option String) (s : Sys)
    (evs : List Event)
    (hdl : s.downloadFails = false) (hsv : s.saveFails = false)
    (hup : s.unpackFails = false) (hne : s.unpackedEntries ≠ [])
    (hrm : s.removeArtifactFails = true) :
    ∃ t, installDownloadPhase ver inst s evs
        = ⟨.errored (.ioError "OSError: vexos.vexos"),
           evs ++ [.download, .extract, .cleanup], t⟩
      ∧ t.artifactPresent = true := by
  rcases he : s.unpackedEntries with _ | ⟨e, es⟩
  · exact absurd he hne
  unfold installDownloadPhase download_vexos
  rw [hdl]
  simp only [hsv, Bool.false_eq_true, if_false, if_neg]
  unfold extract_vexos
  rw [tryRmtree_shape]
  by_cases h3 : s.targetPresent <;> by_cases h4 : s.rmtreeTargetFails <;>
    simp only [h3, h4] <;>
    unfold shutilUnpackArchive osRemoveArtifact <;>
    simp [hup, he, hrm]

/-- C2 witness: the amended theorem instantiated at a concrete system whose
artifact deletion fails. -/
theorem C2_cleanup_failure_aborts_witness :
    ∃ t, installDownloadPhase "VEXOS_V5_1_0_0_1" none
        { baseSys with removeArtifactFails := true } []
        = ⟨.errored (.ioError "OSError: vexos.vexos"),
           [] ++ [.download, .extract, .cleanup], t⟩
      ∧ t.artifactPresent = true :=
  C2_cleanup_failure_aborts "VEXOS_V5_1_0_0_1" none
    { baseSys with removeArtifactFails := true } [] rfl rfl rfl (by decide) rfl

/-- C3 counterexample: with the manifest file present but holding invalid
JSON, the run does NOT proceed as a fresh install — the string-raise site in
`get_installed_version` is not caught by the `except IOError` handler and
the error propagates to the caller. -/
theorem C3_invalid_json_raises_counterexample :
    install_vexos false (some "VEXOS_V5_1_0_0_1") { baseSys with manifest := .invalidJson }
      = ⟨.errored (.stringRaise parseManifestMsg), [.manifestRead],
         { baseSys with manifest := .invalidJson }⟩ := by
  decide

/-- C3 amended: an absent or unreadable manifest is downgraded to "no
installed version" and the run continues into the conflict check as a fresh
install; a manifest with invalid JSON or without a `"version"` key instead
aborts the run with the propagated parse error. -/
theorem C3_manifest_error_handling (force : Bool) (v : String) (s : Sys) :
    ((s.manifest = .absent ∨ s.manifest = .unreadable) →
      install_vexos force (some v) s
        = installConflictPhase force v none s [.manifestRead]) ∧
    ((s.manifest = .invalidJson ∨ s.manifest = .noVersionKey) →
      install_vexos force (some v) s
        = ⟨.errored (.stringRaise parseManifestMsg), [.manifestRead], s⟩) := by
  constructor
  · rintro (h | h) <;>
      simp [install_vexos, installManifestPhase, get_installed_version, h,
        installStalenessPhase]
  · rintro (h | h) <;>
      simp [install_vexos, installManifestPhase, get_installed_version, h]

/-- C3 witness: the amended theorem instantiated at an unreadable manifest
(continues as fresh install) and at a manifest without a version key
(aborts). -/
theorem C3_manifest_error_handling_witness :
    install_vexos false (some "VEXOS_V5_1_0_0_1") { baseSys with manifest := .unreadable }
        = installConflictPhase false "VEXOS_V5_1_0_0_1" none
            { baseSys with manifest := .unreadable } [.manifestRead]
      ∧ install_vexos false (some "VEXOS_V5_1_0_0_1")
          { baseSys with manifest := .noVersionKey }
        = ⟨.errored (.stringRaise parseManifestMsg), [.manifestRead],
           { baseSys with manifest := .noVersionKey }⟩ :=
  ⟨(C3_manifest_error_handling false "VEXOS_V5_1_0_0_1"
      { baseSys with manifest := .unreadable }).1 (Or.inr rfl),
   (C3_manifest_error_handling false "VEXOS_V5_1_0_0_1"
      { baseSys with manifest := .noVersionKey }).2 (Or.inr rfl)⟩

/-- C4 counterexample: the artifact exists and its deletion fails with an
unexpected I/O error, yet `resolve_conflicts` returns success (no propagated
error) and leaves the state untouched — contradicting the claim that such a
failure propagates as `ConflictResolutionFailed`. -/
theorem C4_resolve_swallows_counterexample :
    resolve_conflicts { baseSys with artifactPresent := true, removeArtifactFails := true }
      = (none, { baseSys with artifactPresent := true, removeArtifactFails := true }) := by
  decide

/-- C4 amended: `resolve_conflicts` swallows every deletion failure — it
never propagates an error, even when the deletion fails with an unexpected
I/O error on a path that does exist (in which case the artifact simply
remains on disk). -/
theorem C4_resolve_never_propagates (s : Sys) :
    (resolve_conflicts s).1 = none ∧
    (s.artifactPresent = true → s.removeArtifactFails = true →
      ((resolve_conflicts s).2).artifactPresent = true) := by
  constructor
  · exact resolve_conflicts_fst s
  · intro ha hrm
    unfold resolve_conflicts tryExceptIOPass osRemoveArtifact shutilRmtreeTarget
    by_cases h3 : s.targetPresent <;> by_cases h4 : s.rmtreeTargetFails <;>
      simp [ha, hrm, h3, h4]

/-- C4 witness: the amended theorem instantiated at a system with an
existing artifact whose deletion fails. -/
theorem C4_resolve_never_propagates_witness :
    (resolve_conflicts
        { baseSys with artifactPresent := true, removeArtifactFails := true }).1 = none ∧
    ((resolve_conflicts
        { baseSys with artifactPresent := true, removeArtifactFails := true }).2).artifactPresent
      = true :=
  ⟨(C4_resolve_never_propagates
      { baseSys with artifactPresent := true, removeArtifactFails := true }).1,
   (C4_resolve_never_propagates
      { baseSys with artifactPresent := true, removeArtifactFails := true }).2 rfl rfl⟩

/-- C5 counterexample: a token whose four trailing fields are not integers
parses successfully — the code never validates them numerically, while the
claim requires `MalformedVersion` for such tokens. -/
theorem C5_no_numeric_validation_counterexample :
    vexos_to_semver "VEXOS_V5_a_b_c_d" = .ok "a.b.c.d" := by
  decide

/-- C5 amended: parsing succeeds exactly when the token splits into exactly
6 underscore-delimited fields whose first two are the product and platform
literals; the trailing 4 fields are NOT validated as integers — whatever
they are, they are accepted and joined with dots. -/
theorem C5_parse_characterization (v : String) :
    ((∃ r, vexos_to_semver v = .ok r) ↔
      ∃ a b c d, pySplit v '_' = ["VEXOS", "V5", a, b, c, d]) ∧
    (∀ a b c d, pySplit v '_' = ["VEXOS", "V5", a, b, c, d] →
      vexos_to_semver v = .ok (a ++ "." ++ b ++ "." ++ c ++ "." ++ d)) := by
  have key : ∀ a b c d, pySplit v '_' = ["VEXOS", "V5", a, b, c, d] →
      vexos_to_semver v = .ok (a ++ "." ++ b ++ "." ++ c ++ "." ++ d) := by
    intro a b c d hs
    unfold vexos_to_semver
    rw [hs]
    simp
  refine ⟨⟨?_, ?_⟩, key⟩
  · rintro ⟨r, hr⟩
    unfold vexos_to_semver at hr
    rcases hs : pySplit v '_' with
        _ | ⟨p, _ | ⟨q, _ | ⟨a, _ | ⟨b, _ | ⟨c, _ | ⟨d, _ | ⟨e, rest⟩⟩⟩⟩⟩⟩⟩ <;>
      rw [hs] at hr
    · simp at hr
    · simp at hr
    · simp at hr
    · simp at hr
    · simp at hr
    · simp at hr
    · by_cases hp : p = "VEXOS"
      · by_cases hq : q = "V5"
        · subst hp
          subst hq
          exact ⟨a, b, c, d, rfl⟩
        · simp [hp, hq] at hr
      · simp [hp] at hr
    · simp at hr
  · rintro ⟨a, b, c, d, hs⟩
    exact ⟨_, key a b c d hs⟩

/-- C5 witness: the amended theorem's success direction instantiated at a
concrete well-formed token. -/
theorem C5_parse_characterization_witness :
    vexos_to_semver "VEXOS_V5_9_8_7_6" = .ok ("9" ++ "." ++ "8" ++ "." ++ "7" ++ "." ++ "6") :=
  (C5_parse_characterization "VEXOS_V5_9_8_7_6").2 "9" "8" "7" "6" (by decide)

end VexosDL

namespace VexosDL

/-- C6: a staged artifact present at planning time is always a conflict,
whatever the target's state: with `force = false` the conflict check returns
a Skip with the state, and the event trace, untouched (no fetch, extract or
target mutation), and a full fresh-install run likewise ends in the
conflict Skip; with `force = true` the conflict check invokes
`resolve_conflicts` and then enters the download phase — the trace places
the resolve step strictly before the fetch step — and when the deletion
operation does not fail, the artifact path no longer exists after resolve. -/
theorem C6_artifact_always_conflict (v : String) (inst : Option String) (s : Sys)
    (evs : List Event) (ha : s.artifactPresent = true) :
    (installConflictPhase false v inst s evs = ⟨.skippedConflict, evs, s⟩) ∧
    (s.manifest = .absent →
      install_vexos false (some v) s = ⟨.skippedConflict, [.manifestRead], s⟩) ∧
    (installConflictPhase true v inst s evs
      = installDownloadPhase v inst (resolve_conflicts s).2 (evs ++ [.conflictResolve])) ∧
    (s.removeArtifactFails = false → ((resolve_conflicts s).2).artifactPresent = false) ∧
    (∃ rest, (installConflictPhase true v inst s evs).events
        = evs ++ .conflictResolve :: .download :: rest) := by
  refine ⟨?_, ?_, ?_, ?_, ?_⟩
  · simp [installConflictPhase, package_already_downloaded, ha]
  · intro hm
    simp [install_vexos, installManifestPhase, get_installed_version, hm,
      installStalenessPhase, installConflictPhase, package_already_downloaded, ha]
  · rcases hr : resolve_conflicts s with ⟨eo, t⟩
    have h0 := resolve_conflicts_fst s
    rw [hr] at h0
    subst h0
    simp [installConflictPhase, package_already_downloaded, ha, hr]
  · intro h
    exact resolve_conflicts_artifact s h
  · rcases hr : resolve_conflicts s with ⟨eo, t⟩
    have h0 := resolve_conflicts_fst s
    rw [hr] at h0
    subst h0
    have hshape : installConflictPhase true v inst s evs
        = installDownloadPhase v inst t (evs ++ [.conflictResolve]) := by
      simp [installConflictPhase, package_already_downloaded, ha, hr]
    rw [hshape]
    rcases installDownloadPhase_events v inst t (evs ++ [.conflictResolve]) with ⟨rest, hre⟩
    exact ⟨rest, by simpa using hre⟩

/-- C6 witness: the theorem instantiated at a system whose artifact is
present, nothing else on disk, and deletions succeeding. -/
theorem C6_artifact_always_conflict_witness :
    (installConflictPhase false "VEXOS_V5_1_0_0_1" none
        { baseSys with artifactPresent := true } []
      = ⟨.skippedConflict, [], { baseSys with artifactPresent := true }⟩) ∧
    (install_vexos false (some "VEXOS_V5_1_0_0_1") { baseSys with artifactPresent := true }
      = ⟨.skippedConflict, [.manifestRead], { baseSys with artifactPresent := true }⟩) ∧
    (installConflictPhase true "VEXOS_V5_1_0_0_1" none
        { baseSys with artifactPresent := true } []
      = installDownloadPhase "VEXOS_V5_1_0_0_1" none
          (resolve_conflicts { baseSys with artifactPresent := true }).2
          ([] ++ [.conflictResolve])) ∧
    (((resolve_conflicts { baseSys with artifactPresent := true }).2).artifactPresent
      = false) ∧
    (∃ rest, (installConflictPhase true "VEXOS_V5_1_0_0_1" none
        { baseSys with artifactPresent := true } []).events
      = [] ++ .conflictResolve :: .download :: rest) := by
  have h := C6_artifact_always_conflict "VEXOS_V5_1_0_0_1" none
    { baseSys with artifactPresent := true } [] rfl
  exact ⟨h.1, h.2.1 rfl, h.2.2.1, h.2.2.2.1 rfl, h.2.2.2.2⟩

/-- C7: with an installed manifest present and the resolved target version
not newer than it (per the code's comparison), a `force = false` run ends in
the up-to-date Skip with state and trace untouched (no mutating step runs);
and for the concrete pair installed `"1.0.0.0"` versus candidate token
`"VEXOS_V5_1_0_0_1"` the candidate is strictly newer and the `force = false`
run proceeds into the download phase. -/
theorem C7_up_to_date_planning (v iv : String) (s : Sys)
    (hm : s.manifest = .hasVersion iv) :
    (is_outdated iv v = .ok false →
      install_vexos false (some v) s = ⟨.skippedUpToDate, [.manifestRead], s⟩) ∧
    (is_outdated "1.0.0.0" "VEXOS_V5_1_0_0_1" = .ok true) ∧
    (iv = "1.0.0.0" → s.artifactPresent = false →
      ∃ rest, (install_vexos false (some "VEXOS_V5_1_0_0_1") s).events
          = .manifestRead :: .download :: rest) := by
  refine ⟨?_, by decide, ?_⟩
  · intro hout
    simp [install_vexos, installManifestPhase, get_installed_version, hm,
      installStalenessPhase, hout]
  · intro hiv ha
    subst hiv
    have hout : is_outdated "1.0.0.0" "VEXOS_V5_1_0_0_1" = .ok true := by decide
    have hshape : install_vexos false (some "VEXOS_V5_1_0_0_1") s
        = installDownloadPhase "VEXOS_V5_1_0_0_1" (some "1.0.0.0") s [.manifestRead] := by
      simp [install_vexos, installManifestPhase, get_installed_version, hm,
        installStalenessPhase, hout, installConflictPhase, package_already_downloaded, ha]
    rw [hshape]
    rcases installDownloadPhase_events "VEXOS_V5_1_0_0_1" (some "1.0.0.0") s [.manifestRead]
      with ⟨rest, hre⟩
    exact ⟨rest, by simpa using hre⟩

/-- C7 witness: the theorem instantiated at an installed version
`"1.0.0.0"`: the same-version candidate token is skipped as up to date, and
the `"..1"` candidate run proceeds to the download step. -/
theorem C7_up_to_date_planning_witness :
    (install_vexos false (some "VEXOS_V5_1_0_0_0")
        { baseSys with manifest := .hasVersion "1.0.0.0" }
      = ⟨.skippedUpToDate, [.manifestRead],
         { baseSys with manifest := .hasVersion "1.0.0.0" }⟩) ∧
    (∃ rest, (install_vexos false (some "VEXOS_V5_1_0_0_1")
        { baseSys with manifest := .hasVersion "1.0.0.0" }).events
      = .manifestRead :: .download :: rest) := by
  have h := C7_up_to_date_planning "VEXOS_V5_1_0_0_0" "1.0.0.0"
    { baseSys with manifest := .hasVersion "1.0.0.0" } rfl
  exact ⟨h.1 (by decide), h.2.2 rfl rfl⟩

/-- C8: "not outdated" is reflexive — for every structured version, the
installed dotted rendering compared against a raw token encoding the same
four components reports up to date. -/
theorem C8_not_outdated_refl (a b c d : Nat) :
    is_outdated (renderSemver a b c d) (mkToken a b c d) = .ok false := by
  rw [is_outdated, vexos_to_semver_mkToken]
  simp only [pySplit_renderSemver, pyIndex, List.get?, pyStrLt_irrefl]
  rfl

/-- C9: the extract step's subscript `os.listdir("vexos")[0]` is safe only
when the unpacked archive has a top-level entry — an archive unpacking to an
empty directory aborts extraction with an (unhandled) `IndexError`, not the
typed extract failure, and the error propagates through the install's
download phase; with a single top-level subdirectory the indexing succeeds. -/
theorem C9_extract_empty_archive (s : Sys) (hup : s.unpackFails = false) :
    (s.unpackedEntries = [] → (extract_vexos s).1 = some .indexError) ∧
    (∀ e, s.unpackedEntries = [e] → (extract_vexos s).1 = none) ∧
    (∀ v inst evs, s.unpackedEntries = [] → s.downloadFails = false →
      s.saveFails = false →
      (installDownloadPhase v inst s evs).result = .errored .indexError) := by
  refine ⟨?_, ?_, ?_⟩
  · intro he
    unfold extract_vexos
    rw [tryRmtree_shape]
    by_cases h3 : s.targetPresent <;> by_cases h4 : s.rmtreeTargetFails <;>
      simp only [h3, h4] <;> unfold shutilUnpackArchive <;> simp [hup, he]
  · intro e he
    unfold extract_vexos
    rw [tryRmtree_shape]
    by_cases h3 : s.targetPresent <;> by_cases h4 : s.rmtreeTargetFails <;>
      simp only [h3, h4] <;> unfold shutilUnpackArchive <;> simp [hup, he]
  · intro v inst evs he hdl hsv
    unfold installDownloadPhase download_vexos
    rw [hdl]
    simp only [hsv, Bool.false_eq_true, if_false, if_neg]
    unfold extract_vexos
    rw [tryRmtree_shape]
    by_cases h3 : s.targetPresent <;> by_cases h4 : s.rmtreeTargetFails <;>
      simp only [h3, h4] <;> unfold shutilUnpackArchive <;> simp [hup, he]

/-- C9 witness: the theorem instantiated at an archive unpacking to an empty
directory (IndexError, also through the download phase) and at one with a
single subdirectory (success). -/
theorem C9_extract_empty_archive_witness :
    ((extract_vexos { baseSys with unpackedEntries := [] }).1 = some .indexError) ∧
    ((extract_vexos baseSys).1 = none) ∧
    ((installDownloadPhase "VEXOS_V5_1_0_0_1" none
        { baseSys with unpackedEntries := [] } []).result = .errored .indexError) := by
  have h1 := C9_extract_empty_archive { baseSys with unpackedEntries := [] } rfl
  have h2 := C9_extract_empty_archive baseSys rfl
  exact ⟨h1.1 rfl, h2.2.1 "vexos-folder" rfl, h1.2.2 "VEXOS_V5_1_0_0_1" none [] rfl rfl rfl⟩

/-- C10: `is_outdated` subscripts components 0 through 3 of the installed
string's dot-split unconditionally, so an installed version with fewer than
four components whose present components equal the candidate's corresponding
components aborts with an `IndexError` instead of returning a boolean. -/
theorem C10_short_version_index_error (a b c d : Nat) :
    is_outdated (toString a) (mkToken a b c d) = .error .indexError ∧
    is_outdated (toString a ++ "." ++ toString b) (mkToken a b c d) = .error .indexError ∧
    is_outdated (toString a ++ "." ++ toString b ++ "." ++ toString c) (mkToken a b c d)
      = .error .indexError := by
  refine ⟨?_, ?_, ?_⟩
  · rw [is_outdated, vexos_to_semver_mkToken]
    simp only [pySplit_renderSemver, pySplit_single, pyIndex, List.get?, pyStrLt_irrefl]
    rfl
  · rw [is_outdated, vexos_to_semver_mkToken]
    simp only [pySplit_renderSemver, pySplit_pair, pyIndex, List.get?, pyStrLt_irrefl]
    rfl
  · rw [is_outdated, vexos_to_semver_mkToken]
    simp only [pySplit_renderSemver, pySplit_triple, pyIndex, List.get?, pyStrLt_irrefl]
    rfl

end VexosDL
